import Mathlib

/-!
# Verification of the session-ownership / audio-relay / reconnection core

Shallow embedding of the core logic of the call-relay system:

* `src/utils/redisClient.js` — `SessionManager` (ownership registry, session store)
* `src/utils/website-scraper.js` — `ElevenLabsWebSocketClient` (AI-provider
  connection manager: reconnect backoff, heartbeat, termination signalling,
  message sending)
* `src/routes/outbound-routes.js` — media-stream coordinator (Redis relay
  subscription, buffered-audio flush, status callback)
* `src/unnamed/part_006` — ElevenLabs handlers (audio envelope construction,
  sequence numbering, publication on the relay channel)

Machine integers are modelled as `Nat`/`Int`; JavaScript number arithmetic in
the backoff computation is modelled over `ℚ` (all quantities involved are
small and exact, and every stated inequality has slack far larger than any
double-precision rounding error).  Redis commands (`GET`, `SET NX EX`,
`EXPIRE`, `DEL`) are each one atomic step, matching the single-threaded
command loop of a Redis server.
-/

namespace BuzRelay

/-! ## Ownership registry (src/utils/redisClient.js, `SessionManager`)

The ownership lease for one session is a single Redis key
`session_owner:<sessionId>` holding `String(processId)` with a TTL.  We model
the state of that one key as `Option (String × ℕ)` (value, remaining TTL in
seconds); `none` means the key is absent (never set, deleted, or expired).
-/

/-- State of the single ownership key for one session: `none` if absent,
`some (value, ttl)` if present with a remaining time-to-live. -/
abbrev Lease := Option (String × ℕ)

/-- Redis `GET` on the ownership key (one atomic command). -/
def redisGet : Lease → Option String
  | none => none
  | some (v, _) => some v

/-- Redis `SET key value EX ttl NX` (one atomic command): sets the key only
if it is absent, returning whether it was set (`'OK'` vs `null`). -/
def redisSetNXEX (v : String) (ttl : ℕ) : Lease → Bool × Lease
  | none => (true, some (v, ttl))
  | some l => (false, some l)

/-- Redis `EXPIRE key ttl` (one atomic command): resets the TTL if the key
exists, does nothing otherwise. -/
def redisExpire (ttl : ℕ) : Lease → Lease
  | none => none
  | some (v, _) => some (v, ttl)

/-- Redis `DEL key` (one atomic command): unconditionally removes the key. -/
def redisDel : Lease → Lease := fun _ => none

/-- Environment step: the key's TTL elapses and Redis removes it.  This can
happen between any two commands of a client. -/
def keyExpire : Lease → Lease := fun _ => none

/-- `SessionManager.acquireSessionOwnership` (redisClient.js lines 174-198):
a single `SET ... NX EX` command; returns `true` iff the key was set. -/
def acquireSessionOwnership (processId : String) (ttlSeconds : ℕ) (l : Lease) :
    Bool × Lease :=
  redisSetNXEX processId ttlSeconds l

/-- `SessionManager.updateSessionOwnership` (redisClient.js lines 200-224),
as a sequential (uninterrupted) call: `GET`, then depending on the observed
owner either attempt acquire, refresh the TTL with `EXPIRE`, or return
`false` leaving the key untouched. -/
def updateSessionOwnership (processId : String) (ttlSeconds : ℕ) (l : Lease) :
    Bool × Lease :=
  match redisGet l with
  | none => acquireSessionOwnership processId ttlSeconds l
  | some currentOwner =>
      if currentOwner = processId then (true, redisExpire ttlSeconds l)
      else (false, l)

/-- The read half of `SessionManager.releaseSessionOwnership` (redisClient.js
lines 226-251): the `GET` command observing the current owner. -/
def releaseRead (l : Lease) : Option String := redisGet l

/-- The write half of `SessionManager.releaseSessionOwnership`: given the
owner observed by the earlier `GET`, either return success without writing
(key was absent), issue `DEL` (observed owner is ours), or return `false`
without writing (observed owner is another process).  In the source the
`GET` and the `DEL` are two separate Redis commands, so other clients'
commands can run between them. -/
def releaseWrite (processId : String) (observed : Option String) (l : Lease) :
    Bool × Lease :=
  match observed with
  | none => (true, l)
  | some currentOwner =>
      if currentOwner = processId then (true, redisDel l)
      else (false, l)

/-- `SessionManager.releaseSessionOwnership` as a sequential (uninterrupted)
call: read then conditional delete. -/
def releaseSessionOwnership (processId : String) (l : Lease) : Bool × Lease :=
  releaseWrite processId (releaseRead l) l

/-- Modelled from the spec: an atomic compare-and-delete, the operation the
spec claims `release` to be — compare the stored value against the caller's
process id and delete in the same atomic step. -/
def atomicCompareAndDelete (processId : String) (l : Lease) : Bool × Lease :=
  if redisGet l = some processId then (true, redisDel l) else (false, l)

/-- A process holds an unexpired ownership lease iff the key is present with
its process id and a positive remaining TTL. -/
def holdsLease (l : Lease) (processId : String) : Prop :=
  ∃ t, 0 < t ∧ l = some (processId, t)

theorem releaseSessionOwnership_eq (p : String) (l : Lease) :
    releaseSessionOwnership p l = releaseWrite p (releaseRead l) l := rfl

/-! ## Reconnection backoff (src/utils/website-scraper.js lines 523-529, 754-795)

`_scheduleReconnect` increments `session.reconnectAttempts` and then computes

```js
const baseDelay = Math.min(RECONNECT_MAX_DELAY_MS,
                           RECONNECT_BASE_DELAY_MS * Math.pow(RECONNECT_FACTOR, session.reconnectAttempts - 1));
const jitter = baseDelay * 0.2 * Math.random();
const delay  = Math.round(baseDelay + jitter);
```

We model the computation over `ℚ`, with `attempts` the post-increment value
(so `attempts = n` for the n-th consecutive failure) and `r ∈ [0, 1)` the
value returned by `Math.random()`. -/

/-- `RECONNECT_BASE_DELAY_MS = 1000` (website-scraper.js line 524). -/
def RECONNECT_BASE_DELAY_MS : ℚ := 1000

/-- `RECONNECT_MAX_DELAY_MS = 30000` (website-scraper.js line 525). -/
def RECONNECT_MAX_DELAY_MS : ℚ := 30000

/-- `RECONNECT_FACTOR = 2` (website-scraper.js line 526). -/
def RECONNECT_FACTOR : ℚ := 2

/-- `RECONNECT_MAX_ATTEMPTS = 10` (website-scraper.js line 527). -/
def RECONNECT_MAX_ATTEMPTS : ℕ := 10

/-- The capped exponential base delay for the n-th consecutive failure
(`attempts` is the post-increment counter value, so the exponent is
`attempts - 1`). -/
def reconnectBaseDelay (attempts : ℕ) : ℚ :=
  min RECONNECT_MAX_DELAY_MS
    (RECONNECT_BASE_DELAY_MS * RECONNECT_FACTOR ^ (attempts - 1))

/-- `baseDelay * 0.2 * Math.random()` with `r` the random draw. -/
def reconnectJitter (attempts : ℕ) (r : ℚ) : ℚ :=
  reconnectBaseDelay attempts * (2 / 10) * r

/-- `Math.round(baseDelay + jitter)`: the scheduled reconnection delay in
milliseconds.  `Math.round` rounds half away from zero towards +∞ on
positive inputs, which is `round` on `ℚ`. -/
def reconnectDelay (attempts : ℕ) (r : ℚ) : ℤ :=
  round (reconnectBaseDelay attempts + reconnectJitter attempts r)

/-! ## AI-provider connection state machine (src/utils/website-scraper.js)

Per-session entry of the module-level `activeSessions` map.  `ws` is the
WebSocket instance: `none` when no socket object exists, `some state` with
its `readyState` otherwise. -/

/-- The session `status` strings used by `ElevenLabsWebSocketClient`. -/
inductive ELStatus
  | CONNECTING
  | OPEN
  | ERROR
  | CLOSED_TEMP
  | RECONNECTING
  | CLOSING
  | CLOSED
deriving DecidableEq, Repr

/-- A WebSocket `readyState`. -/
inductive WsReadyState
  | CONNECTING
  | OPEN
  | CLOSING
  | CLOSED
deriving DecidableEq, Repr

/-- The fields of an `activeSessions` entry that the verified logic reads
(website-scraper.js line 532 and lines 580-598). -/
structure ELSession where
  status : ELStatus
  reconnectAttempts : ℕ
  ws : Option WsReadyState
deriving DecidableEq, Repr

/-- Observable events of one `ElevenLabsWebSocketClient` call: status-field
assignments, emitted events / invoked callbacks, timer creation, and removal
of the session entry by `_cleanupSession`. -/
inductive ELEvent
  | statusSet (st : ELStatus)
  | reconnectingEvent (attempt : ℕ) (delay : ℤ)
  | permanentlyClosed (reason : String)
  | closeEmitted (code : ℕ) (reason : String)
  | closeCallback (code : ℕ) (reason : String)
  | timerScheduled (delay : ℤ)
  | cleanedUp
deriving DecidableEq, Repr

/-- `_scheduleReconnect` (website-scraper.js lines 754-795), with `r` the
`Math.random()` draw used for the jitter.  Returns the `activeSessions`
entry after the call (`none` when `_cleanupSession` deleted it) and the
events in program order. -/
def scheduleReconnect (r : ℚ) : Option ELSession → Option ELSession × List ELEvent
  | none => (none, [])
  | some s =>
      if s.status = .CLOSING ∨ s.status = .CLOSED then (some s, [])
      else if RECONNECT_MAX_ATTEMPTS ≤ s.reconnectAttempts then
        (none,
         [.statusSet .CLOSED,
          .permanentlyClosed "Max reconnection attempts reached",
          .closeCallback 1011 "Max reconnection attempts reached",
          .cleanedUp])
      else
        let n := s.reconnectAttempts + 1
        (some { s with status := .RECONNECTING, reconnectAttempts := n },
         [.statusSet .RECONNECTING,
          .reconnectingEvent n (reconnectDelay n r),
          .timerScheduled (reconnectDelay n r)])

/-- `_handleDisconnect` (website-scraper.js lines 730-751): skip when the
session is gone or already closing/closed; on a clean close transition to
`CLOSED`, notify, and clean up; otherwise schedule a reconnect. -/
def handleDisconnect (isCleanClose : Bool) (r : ℚ) :
    Option ELSession → Option ELSession × List ELEvent
  | none => (none, [])
  | some s =>
      if s.status = .CLOSING ∨ s.status = .CLOSED then (some s, [])
      else if isCleanClose ∨ s.status = .CLOSING then
        (none,
         [.statusSet .CLOSED,
          .closeEmitted 1000 "Clean closure",
          .closeCallback 1000 "Clean closure",
          .cleanedUp])
      else scheduleReconnect r (some s)

/-- `_connect` (website-scraper.js lines 619-728), reduced to its effect on
the tracked fields: abort when the session is gone or closing/closed,
otherwise set the status to `CONNECTING` and start a fresh socket. -/
def connectOp : Option ELSession → Option ELSession × List ELEvent
  | none => (none, [])
  | some s =>
      if s.status = .CLOSING ∨ s.status = .CLOSED then (some s, [])
      else (some { s with status := .CONNECTING, ws := some .CONNECTING },
            [.statusSet .CONNECTING])

/-- The client operations that can touch a session's reconnect machinery
after a disconnect. -/
inductive ELOp
  | sched (r : ℚ)
  | disc (isCleanClose : Bool) (r : ℚ)
  | conn

/-- Dispatch one operation. -/
def stepOp : ELOp → Option ELSession → Option ELSession × List ELEvent
  | .sched r, s => scheduleReconnect r s
  | .disc b r, s => handleDisconnect b r s
  | .conn, s => connectOp s

/-- Run a sequence of operations, accumulating events. -/
def runOps : List ELOp → Option ELSession → Option ELSession × List ELEvent
  | [], s => (s, [])
  | op :: ops, s =>
      let res := stepOp op s
      let rest := runOps ops res.1
      (rest.1, res.2 ++ rest.2)

/-! ## Message sending (src/utils/website-scraper.js lines 908-962, 1064-1087) -/

/-- Messages sent to the ElevenLabs socket by the verified paths. -/
inductive ELOutMsg
  | userAudioChunk (audioBase64 : String)
  | pong (eventId : ℤ)
  | userTextInput (text : String)
deriving DecidableEq, Repr

/-- `sendMessage` (website-scraper.js lines 908-938): transmits only when
the session exists, its status is `'OPEN'`, a socket object exists, and its
`readyState` is `OPEN`; otherwise returns `false` having sent nothing.
The returned list is what went out on the wire (the code has no queue). -/
def sendMessage (localSession : Option ELSession) (message : ELOutMsg) :
    Bool × List ELOutMsg :=
  match localSession with
  | none => (false, [])
  | some s =>
      if s.status = .OPEN ∧ s.ws = some .OPEN then (true, [message])
      else (false, [])

/-- `sendAudioChunk` (website-scraper.js lines 945-949): wraps the base64
audio in a `user_audio_chunk` message and delegates to `sendMessage`. -/
def sendAudioChunk (localSession : Option ELSession) (audioBase64 : String) :
    Bool × List ELOutMsg :=
  sendMessage localSession (.userAudioChunk audioBase64)

/-- `isSessionActiveOrOpening` (website-scraper.js lines 1074-1077). -/
def isSessionActiveOrOpening (localSession : Option ELSession) : Bool :=
  match localSession with
  | none => false
  | some s =>
      s.status = ELStatus.OPEN ∨ s.status = ELStatus.CONNECTING ∨
        s.status = ELStatus.RECONNECTING

/-- The Twilio `'media'` forwarding gate (outbound-routes.js lines 344-420):
caller audio is forwarded to `sendAudioChunk` iff `isSessionActiveOrOpening`
holds; otherwise nothing is forwarded. -/
def twilioMediaForward (localSession : Option ELSession) (payload : String) :
    Bool × List ELOutMsg :=
  if isSessionActiveOrOpening localSession then sendAudioChunk localSession payload
  else (false, [])

/-! ## Shared session record (`outbound_session:<sessionId>` in Redis)

The record is a JSON object.  We single out the fields the verified logic
reads or writes; every other field is carried verbatim in `rest` (the JS
spread `{...sessionData, ...}` preserves them). -/

/-- A stored outbound-session record. -/
structure SessionRecord where
  status : String
  terminateRequested : Bool
  terminateRequestedBy : Option ℤ
  terminateRequestTime : Option ℤ
  terminationAcknowledged : Bool
  terminationAcknowledgedBy : Option ℤ
  terminationAcknowledgedTime : Option ℤ
  rest : List (String × String)
deriving DecidableEq, Repr

/-- The `outbound_session:<sessionId>` key for one session: absent, or a
record with its remaining TTL in seconds. -/
abbrev SessionStore := Option (SessionRecord × ℕ)

/-- The default TTL of `saveOutboundSession` (redisClient.js line 90):
`ttlSeconds = 3600`. -/
def DEFAULT_SESSION_TTL : ℕ := 3600

/-- `SessionManager.saveOutboundSession` (redisClient.js lines 90-99):
`SET key JSON.stringify(data) EX ttl` — overwrites the record and resets its
expiry to `ttl`. -/
def saveOutboundSession (rec : SessionRecord) (ttlSeconds : ℕ) :
    SessionStore → SessionStore :=
  fun _ => some (rec, ttlSeconds)

/-- `endConversation` on a session that is not held locally
(website-scraper.js lines 968-1003): if the record exists in Redis, rewrite
it with `status: 'terminating'` and the termination-request fields via
`saveOutboundSession` (default TTL); if it does not exist, log and return.
Every failure path is caught, so the call never throws. -/
def endConversationRemote (requesterPid : ℤ) (now : ℤ) (store : SessionStore) :
    SessionStore :=
  match store with
  | none => none
  | some (rec, ttl) =>
      saveOutboundSession
        { rec with
            status := "terminating",
            terminateRequested := true,
            terminateRequestedBy := some requesterPid,
            terminateRequestTime := some now }
        DEFAULT_SESSION_TTL (some (rec, ttl))

/-- Result of one `_checkForTerminationRequests` call. -/
structure TerminationCheck where
  heartbeatStopped : Bool
  localSession : Option ELSession
  socketClose : Option (ℕ × String)
  store : SessionStore
deriving DecidableEq, Repr

/-- Render `sessionData.terminateRequestedBy` the way the JS template
literal does (`undefined` when the field is missing). -/
def renderPid : Option ℤ → String
  | some p => toString p
  | none => "undefined"

/-- `_checkForTerminationRequests` (website-scraper.js lines 1268-1297),
run by the owning process on each heartbeat tick (line 813): if the shared
record carries `terminateRequested`, stop the heartbeat, mark the local
session `CLOSING` and close its socket with code 1000 and a reason naming
the requesting process, then acknowledge on the shared record. -/
def checkForTerminationRequests (ownerPid : ℤ) (now : ℤ)
    (localSession : Option ELSession) (store : SessionStore) : TerminationCheck :=
  match store with
  | some (rec, ttl) =>
      if rec.terminateRequested then
        let closing :=
          match localSession with
          | some s =>
              match s.ws with
              | some _ => (some { s with status := ELStatus.CLOSING },
                           some (1000,
                             "Termination requested by process " ++
                               renderPid rec.terminateRequestedBy))
              | none => (localSession, none)
          | none => (localSession, none)
        { heartbeatStopped := true
          localSession := closing.1
          socketClose := closing.2
          store :=
            saveOutboundSession
              { rec with
                  status := "closing",
                  terminationAcknowledged := true,
                  terminationAcknowledgedBy := some ownerPid,
                  terminationAcknowledgedTime := some now }
              DEFAULT_SESSION_TTL (some (rec, ttl)) }
      else
        { heartbeatStopped := false, localSession := localSession,
          socketClose := none, store := some (rec, ttl) }
  | none =>
      { heartbeatStopped := false, localSession := localSession,
        socketClose := none, store := none }

/-! ## Media-stream coordinator (src/routes/outbound-routes.js) -/

/-- The per-session relay channel name for ElevenLabs→Twilio audio
(`AUDIO_CHANNEL_PREFIX` in src/unnamed/part_006 line 11). -/
def elevenToTwilioChannel (sessionId : String) : String :=
  "elevenlabs-to-twilio:" ++ sessionId

/-- Side effects of the coordinator paths we verify. -/
inductive CoordEffect
  | unsub (channel : String)
  | endConv (sessionId : String)
  | saveRecord (sessionId : String)
deriving DecidableEq, Repr

/-- The Twilio media-stream `ws.on('close')` handler (outbound-routes.js
lines 431-440): if an entry for the session exists in `activeSubscriptions`,
unsubscribe its handler from the relay channel and remove the entry; nothing
else.  (`ws.on('error')`, lines 427-429, only logs.) -/
def onTwilioClose (sessionId : String) (subs : List String) :
    List String × List CoordEffect :=
  if sessionId ∈ subs then
    (subs.erase sessionId, [.unsub (elevenToTwilioChannel sessionId)])
  else (subs, [])

/-- The terminal Twilio call statuses (outbound-routes.js line 512). -/
def terminalStatuses : List String :=
  ["completed", "failed", "canceled", "busy", "no-answer"]

/-- The `/status/:sessionId` callback route, session-store part
(outbound-routes.js lines 487-548): update `callInfo.status`, pick a TTL of
24 h for terminal statuses (1 h otherwise), call `endConversation` on a
terminal status, then save the record. -/
def statusCallbackStep (sessionId : String) (callStatus : String)
    (store : SessionStore) : SessionStore × List CoordEffect :=
  match store with
  | none => (none, [])
  | some (rec, _) =>
      let rec' := { rec with status := callStatus }
      let ttl := if callStatus ∈ terminalStatuses then 24 * 3600 else 3600
      let evs :=
        if callStatus ∈ terminalStatuses then [CoordEffect.endConv sessionId]
        else []
      (some (rec', ttl), evs ++ [CoordEffect.saveRecord sessionId])

/-! ## Audio relay (src/unnamed/part_006 and outbound-routes.js lines 200-343) -/

/-- The Audio Chunk Envelope shape carried on the relay channel and parsed
by the coordinator's subscription handler: the JSON object that
`handleAudioMessage` constructs at src/unnamed/part_006 lines 107-128.
Redis pub/sub delivers the serialized payload verbatim and
`JSON.parse (JSON.stringify x) = x` for these objects, so the channel is
modelled as carrying the envelope unchanged. -/
structure Envelope where
  audioBase64 : String
  source : String
  timestamp : ℤ
  processId : ℤ
  format : String
  sampleRate : ℤ
  sequenceNumber : ℤ
  track : String
  contentType : String
deriving DecidableEq, Repr

/-- The message actually written to the Twilio media-stream socket:
`{event: 'media', streamSid, media: {payload}}` — deliberately nothing else
(outbound-routes.js lines 217-230). -/
structure TwilioMediaMsg where
  event : String
  streamSid : String
  payload : String
deriving DecidableEq, Repr

/-- The names in `module.exports` of src/utils/redisClient.js (lines
279-287). -/
def redisClientModuleExports : List String :=
  ["redisClient", "subscriberClient", "publisherClient", "connectRedis",
   "sessionManager", "redisConnectionOptions", "publishRedisMessage"]

/-- src/unnamed/part_006 line 9 destructures `getRedisClient` from
`./redisClient`.  CommonJS destructuring of a name missing from
`module.exports` yields `undefined`, so the binding is callable only if the
name is exported.  (A `getRedisClient` exists only as an ES-module export
of the unrelated utils/websocketManager.js; nothing patches redisClient's
exports.) -/
def getRedisClientIsFunction : Bool :=
  redisClientModuleExports.contains "getRedisClient"

/-- What one `handleAudioMessage` call did: published an envelope on a
channel, returned at the missing-audio guard, or threw and was caught by
its own catch block. -/
inductive PublishOutcome
  | published (e : Envelope) (channel : String)
  | noAudio
  | errorCaught
deriving DecidableEq, Repr

/-- Whether an outcome published an envelope. -/
def PublishOutcome.isPublished : PublishOutcome → Bool
  | published _ _ => true
  | _ => false

/-- Result of `handleAudioMessage`: the outcome and the per-session
sequence counter afterwards. -/
structure PublishResult where
  outcome : PublishOutcome
  counterAfter : ℕ
deriving DecidableEq, Repr

/-- `handleAudioMessage` (src/unnamed/part_006 lines 83-194): extract the
base64 audio and return when it is absent or empty (lines 87-92); then call
`getRedisClient()` (line 102).  Because `getRedisClient` is not among
`./redisClient`'s exports, that binding is `undefined` and the call throws
a `TypeError` — before the sequence counter is read (lines 108-112) and
before any routing branch publishes (lines 143-187) — which the function's
own catch (line 189) swallows.  The `published` branch transcribes lines
107-188 as written (envelope stamped with the next sequence number and
published on `elevenlabs-to-twilio:<sessionId>` by every routing branch);
it is taken only if the module lookup had succeeded. -/
def handleAudioMessage (sessionId : String) (audioData : Option String)
    (counter : ℕ) (pid : ℤ) (now : ℤ) : PublishResult :=
  match audioData with
  | none => { outcome := .noAudio, counterAfter := counter }
  | some a =>
      if a = "" then { outcome := .noAudio, counterAfter := counter }
      else if getRedisClientIsFunction = false then
        { outcome := .errorCaught, counterAfter := counter }
      else
        { outcome := .published
            { audioBase64 := a
              source := "direct-audio"
              timestamp := now
              processId := pid
              format := "ulaw"
              sampleRate := 8000
              sequenceNumber := (counter : ℤ)
              track := "outbound"
              contentType := "audio/x-mulaw" }
            (elevenToTwilioChannel sessionId)
          counterAfter := counter + 1 }

/-- `MAX_SERVER_BUFFER_SIZE = 20` (outbound-routes.js line 71). -/
def MAX_SERVER_BUFFER_SIZE : ℕ := 20

/-- The buffering branch of the relay subscription handler
(outbound-routes.js lines 244-258): `buf.push(data)`, then `buf.shift()`
once the length exceeds `MAX_SERVER_BUFFER_SIZE` (drop-oldest). -/
def bufferInsert (buf : List Envelope) (e : Envelope) : List Envelope :=
  let b := buf ++ [e]
  if MAX_SERVER_BUFFER_SIZE < b.length then b.drop 1 else b

/-- What the relay subscription handler did with one incoming envelope. -/
inductive RelayAction
  | deliver (m : TwilioMediaMsg)
  | buffered
  | discarded
deriving DecidableEq, Repr

/-- The relay subscription `messageHandler` (outbound-routes.js lines
200-282) for one parsed envelope: deliver a minimal Twilio media message
when the audio is present, the socket is open and the `streamSid` is known;
buffer when the `streamSid` is not yet known; otherwise discard.  JS
truthiness: an absent or empty `streamSid` / `audioBase64` is falsy. -/
def messageHandler (e : Envelope) (wsOpen : Bool) (streamSid : Option String)
    (buf : List Envelope) : RelayAction × List Envelope :=
  match streamSid with
  | some sid =>
      if sid = "" then (.buffered, bufferInsert buf e)
      else if e.audioBase64 ≠ "" ∧ wsOpen = true then
        (.deliver { event := "media", streamSid := sid, payload := e.audioBase64 },
         buf)
      else (.discarded, buf)
  | none => (.buffered, bufferInsert buf e)

/-- The buffered-audio flush in the Twilio `'start'` event handler
(outbound-routes.js lines 313-339): iterate over the buffered chunks in
arrival order, sending each as a minimal Twilio media message, then delete
the buffer. -/
def flushServerBuffer (streamSid : String) (buf : List Envelope) :
    List TwilioMediaMsg × List Envelope :=
  (buf.map (fun c =>
     { event := "media", streamSid := streamSid, payload := c.audioBase64 }),
   [])

/-- Modelled from the spec: the flush `onMediaStreamReady` describes —
sort the buffered entries by sequence number first when more than one entry
is buffered, then send each in order and clear the buffer. -/
def specFlushServerBuffer (streamSid : String) (buf : List Envelope) :
    List TwilioMediaMsg × List Envelope :=
  let b :=
    if 1 < buf.length then
      buf.insertionSort (fun a c => a.sequenceNumber ≤ c.sequenceNumber)
    else buf
  (b.map (fun c =>
     { event := "media", streamSid := streamSid, payload := c.audioBase64 }),
   [])

/-! ## Theorems -/

/-- C5: `updateSessionOwnership` (renew) returns `true` and extends the
lease TTL when the lease is held by the calling process id; attempts
`acquire` when no lease exists (and then succeeds, setting the lease); and
when the lease is held by a different process it returns `false` without
throwing (the function is total, every error path returns `false`) and
leaves the current owner's lease untouched. -/
theorem updateSessionOwnership_spec_thm (pid : String) (ttl : ℕ) (l : Lease) :
    (∀ q t, l = some (q, t) → q = pid →
        updateSessionOwnership pid ttl l = (true, some (pid, ttl))) ∧
    (l = none →
        updateSessionOwnership pid ttl l = acquireSessionOwnership pid ttl l ∧
        updateSessionOwnership pid ttl l = (true, some (pid, ttl))) ∧
    (∀ q t, l = some (q, t) → q ≠ pid →
        updateSessionOwnership pid ttl l = (false, some (q, t))) := by
  refine ⟨?_, ?_, ?_⟩
  · rintro q t rfl rfl
    simp [updateSessionOwnership, redisGet, redisExpire]
  · rintro rfl
    simp [updateSessionOwnership, redisGet, acquireSessionOwnership, redisSetNXEX]
  · rintro q t rfl hq
    simp [updateSessionOwnership, redisGet, hq]

/-- Witness for C5: concrete renew by the owner, renew with no lease, and
renew by a non-owner. -/
theorem updateSessionOwnership_spec_witness :
    updateSessionOwnership "1111" 30 (some ("1111", 5)) = (true, some ("1111", 30)) ∧
    updateSessionOwnership "1111" 30 none = (true, some ("1111", 30)) ∧
    updateSessionOwnership "1111" 30 (some ("2222", 12)) = (false, some ("2222", 12)) := by
  have h1 := updateSessionOwnership_spec_thm "1111" 30 (some ("1111", 5))
  have h2 := updateSessionOwnership_spec_thm "1111" 30 none
  have h3 := updateSessionOwnership_spec_thm "1111" 30 (some ("2222", 12))
  exact ⟨h1.1 "1111" 5 rfl rfl, (h2.2.1 rfl).2, h3.2.2 "2222" 12 rfl (by decide)⟩

/-- Counterexample for C1: `releaseSessionOwnership` is not an atomic
compare-and-delete.  Its `GET` and `DEL` are separate Redis commands, and
with one key-value command per atomic step the following interleaving
exists: process 1111's release reads the lease (still its own), the lease's
TTL then expires, process 2222 acquires the lease, and 1111's conditional
delete — conditioned only on the stale read — then removes 2222's live
lease and reports success.  An atomic compare-and-delete applied at the
delete's instant would have refused. -/
theorem release_not_cad_counterexample :
    releaseSessionOwnership "1111" (some ("1111", 30)) =
      (releaseWrite "1111" (releaseRead (some ("1111", 30))) (some ("1111", 30))) ∧
    releaseRead (some ("1111", 30)) = some "1111" ∧
    keyExpire (some ("1111", 30)) = none ∧
    acquireSessionOwnership "2222" 30 none = (true, some ("2222", 30)) ∧
    releaseWrite "1111" (some "1111") (some ("2222", 30)) = (true, none) ∧
    atomicCompareAndDelete "1111" (some ("2222", 30)) = (false, some ("2222", 30)) := by
  refine ⟨rfl, rfl, rfl, rfl, ?_, ?_⟩ <;> decide

/-- C1 as amended: with each key-value command one atomic step, at most one
process holds an unexpired Ownership Lease for a session at any instant
(the lease is a single key holding a single process id), and `acquire` is a
single atomic set-if-absent that never overwrites an existing lease; but
`renew` and `release` are read-then-conditional-write sequences of two
separate commands, not atomic compare-and-set/compare-and-delete — run
without interruption they still never displace another process's lease. -/
theorem ownership_registry_amended (l : Lease) (p q : String) (t ttl : ℕ) :
    (∀ p' q', holdsLease l p' → holdsLease l q' → p' = q') ∧
    acquireSessionOwnership p ttl none = (true, some (p, ttl)) ∧
    acquireSessionOwnership p ttl (some (q, t)) = (false, some (q, t)) ∧
    (q ≠ p → updateSessionOwnership p ttl (some (q, t)) = (false, some (q, t))) ∧
    (q ≠ p → releaseSessionOwnership p (some (q, t)) = (false, some (q, t))) := by
  refine ⟨?_, rfl, rfl, ?_, ?_⟩
  · rintro p' q' ⟨t1, -, h1⟩ ⟨t2, -, h2⟩
    rw [h1] at h2
    exact ((Prod.mk.injEq _ _ _ _).mp (Option.some.injEq _ _ ▸ h2 : (p', t1) = (q', t2))).1
  · intro hq
    simp [updateSessionOwnership, redisGet, hq]
  · intro hq
    simp [releaseSessionOwnership, releaseWrite, releaseRead, redisGet, hq]

/-- Witness for the amended C1: a concrete lease held by process 3333, with
4444 failing to acquire, renew, or release it. -/
theorem ownership_registry_amended_witness :
    acquireSessionOwnership "4444" 30 none = (true, some ("4444", 30)) ∧
    acquireSessionOwnership "4444" 30 (some ("3333", 7)) = (false, some ("3333", 7)) ∧
    updateSessionOwnership "4444" 30 (some ("3333", 7)) = (false, some ("3333", 7)) ∧
    releaseSessionOwnership "4444" (some ("3333", 7)) = (false, some ("3333", 7)) := by
  have h := ownership_registry_amended (some ("3333", 7)) "4444" "3333" 7 30
  exact ⟨h.2.1, h.2.2.1, h.2.2.2.1 (by decide), h.2.2.2.2 (by decide)⟩

/-- Counterexample for C4: the jitter is added on top of the capped base
delay (`delay = round(baseDelay + baseDelay*0.2*random())`), so the
scheduled delay can exceed the 30-second cap: on the 6th consecutive
failure with `Math.random() = 1/2` the delay is 33000 ms. -/
theorem reconnect_delay_exceeds_cap_counterexample :
    reconnectDelay 6 (1 / 2) = 33000 ∧
    RECONNECT_MAX_DELAY_MS = 30000 ∧ ¬((33000 : ℤ) ≤ 30000) := by
  refine ⟨?_, rfl, by decide⟩
  have hb : reconnectBaseDelay 6 = 30000 := by
    norm_num [reconnectBaseDelay, RECONNECT_BASE_DELAY_MS, RECONNECT_MAX_DELAY_MS,
      RECONNECT_FACTOR]
  rw [reconnectDelay, reconnectJitter, hb]
  norm_num [round_eq]

/-- C4 as amended: the base delay for the n-th consecutive failure is
`min(30000, 1000·2^(n-1))` — ignoring jitter (`r = 0`) failures 1-5 yield
1000, 2000, 4000, 8000, 16000 ms and the 6th yields exactly 30000 ms — but
the jitter is additive in `[0, 20%)` of the base (never negative, so not
±20%), applied after the cap, and the final delay can therefore exceed the
30-second cap, though never 36000 ms. -/
theorem reconnect_backoff_amended :
    (∀ n : ℕ, ∀ r : ℚ, 0 ≤ r → r < 1 →
       reconnectBaseDelay n ≤ 30000 ∧
       0 ≤ reconnectJitter n r ∧
       reconnectDelay n r ≤ 36000) ∧
    reconnectDelay 1 0 = 1000 ∧ reconnectDelay 2 0 = 2000 ∧
    reconnectDelay 3 0 = 4000 ∧ reconnectDelay 4 0 = 8000 ∧
    reconnectDelay 5 0 = 16000 ∧ reconnectDelay 6 0 = 30000 := by
  have hnum : ∀ n : ℕ, reconnectDelay n 0 = round (reconnectBaseDelay n) := by
    intro n
    rw [reconnectDelay, reconnectJitter]
    norm_num
  refine ⟨?_, ?_, ?_, ?_, ?_, ?_, ?_⟩
  · intro n r hr hr1
    have hle : reconnectBaseDelay n ≤ 30000 :=
      min_le_left RECONNECT_MAX_DELAY_MS _
    have hnn : (0 : ℚ) ≤ reconnectBaseDelay n := by
      refine le_min (by norm_num [RECONNECT_MAX_DELAY_MS]) ?_
      have : (0 : ℚ) ≤ RECONNECT_FACTOR ^ (n - 1) := by
        rw [RECONNECT_FACTOR]
        positivity
      norm_num [RECONNECT_BASE_DELAY_MS]
      linarith
    have hjnn : 0 ≤ reconnectJitter n r := by
      rw [reconnectJitter]
      have := mul_nonneg hnn (by norm_num : (0 : ℚ) ≤ 2 / 10)
      exact mul_nonneg this hr
    refine ⟨hle, hjnn, ?_⟩
    have hjle : reconnectJitter n r ≤ 6000 := by
      rw [reconnectJitter]
      nlinarith
    rw [reconnectDelay, round_eq]
    have h2 : ⌊reconnectBaseDelay n + reconnectJitter n r + 1 / 2⌋ ≤
        ⌊(36000 : ℚ) + 1 / 2⌋ := Int.floor_le_floor (by linarith)
    have h3 : ⌊(36000 : ℚ) + 1 / 2⌋ = 36000 := by norm_num [Int.floor_eq_iff]
    omega
  all_goals
    rw [hnum]
    norm_num [reconnectBaseDelay, RECONNECT_BASE_DELAY_MS, RECONNECT_MAX_DELAY_MS,
      RECONNECT_FACTOR, round_eq]

/-- Witness for the amended C4: the bounds hold at the 6th failure with a
concrete random draw of 1/2, and the uncapped sixth base delay is 30000. -/
theorem reconnect_backoff_amended_witness :
    reconnectBaseDelay 6 ≤ 30000 ∧ 0 ≤ reconnectJitter 6 (1 / 2) ∧
    reconnectDelay 6 (1 / 2) ≤ 36000 ∧ reconnectDelay 6 0 = 30000 := by
  have h := reconnect_backoff_amended
  have h6 := h.1 6 (1 / 2) (by norm_num) (by norm_num)
  exact ⟨h6.1, h6.2.1, h6.2.2, h.2.2.2.2.2.2⟩

theorem stepOp_none (op : ELOp) : stepOp op none = (none, []) := by
  cases op <;> rfl

theorem runOps_none (ops : List ELOp) : runOps ops none = (none, []) := by
  induction ops with
  | nil => rfl
  | cons op ops ih => simp [runOps, stepOp_none, ih]

/-- C7: when `_scheduleReconnect` runs with the attempt counter at
`RECONNECT_MAX_ATTEMPTS` (i.e. after the 10th consecutive failed
reconnection attempt) on a session that is not already closing/closed, the
status is set to `CLOSED`, the `permanently_closed` event fires, the close
callback is invoked with the distinguishable reason
`'Max reconnection attempts reached'` (code 1011), the local session entry
is removed, no reconnect timer is created by this call, and no sequence of
subsequent client operations on the (now removed) session ever schedules
one. -/
theorem max_reconnect_permanent_close (s : ELSession) (r : ℚ)
    (h1 : s.status ≠ .CLOSING) (h2 : s.status ≠ .CLOSED)
    (h3 : RECONNECT_MAX_ATTEMPTS ≤ s.reconnectAttempts) :
    scheduleReconnect r (some s) =
      (none,
       [.statusSet .CLOSED,
        .permanentlyClosed "Max reconnection attempts reached",
        .closeCallback 1011 "Max reconnection attempts reached",
        .cleanedUp]) ∧
    (∀ d, ELEvent.timerScheduled d ∉ (scheduleReconnect r (some s)).2) ∧
    (∀ ops, runOps ops (scheduleReconnect r (some s)).1 = (none, [])) := by
  have hmain : scheduleReconnect r (some s) =
      (none,
       [.statusSet .CLOSED,
        .permanentlyClosed "Max reconnection attempts reached",
        .closeCallback 1011 "Max reconnection attempts reached",
        .cleanedUp]) := by
    simp [scheduleReconnect, h1, h2, h3]
  refine ⟨hmain, ?_, ?_⟩
  · intro d
    rw [hmain]
    simp
  · intro ops
    rw [hmain]
    exact runOps_none ops

/-- Witness for C7: a concrete `RECONNECTING` session at 10 attempts is
permanently closed, and a further disconnect/reconnect/connect sequence on
the removed entry does nothing. -/
theorem max_reconnect_permanent_close_witness :
    scheduleReconnect 0 (some { status := .RECONNECTING, reconnectAttempts := 10,
                                ws := some .CLOSED }) =
      (none,
       [.statusSet .CLOSED,
        .permanentlyClosed "Max reconnection attempts reached",
        .closeCallback 1011 "Max reconnection attempts reached",
        .cleanedUp]) ∧
    runOps [ELOp.disc false 0, ELOp.sched 0, ELOp.conn] none = (none, []) := by
  have h := max_reconnect_permanent_close
    { status := .RECONNECTING, reconnectAttempts := 10, ws := some .CLOSED } 0
    (by decide) (by decide) (by decide)
  refine ⟨h.1, ?_⟩
  have h2 := h.2.2 [ELOp.disc false 0, ELOp.sched 0, ELOp.conn]
  have hfst : (scheduleReconnect 0 (some { status := .RECONNECTING, reconnectAttempts := 10, ws := some .CLOSED })).1 = none := by rw [h.1]
  rwa [hfst] at h2

/-- Counterexample for C2: the media-stream `ws.on('close')` handler, run
for a session with an active subscription, only unsubscribes from the relay
channel — it neither ends the AI-provider conversation nor writes the
Session record's status. -/
theorem twilio_close_no_teardown_counterexample :
    onTwilioClose "s1" ["s1"] =
      (([] : List String), [CoordEffect.unsub "elevenlabs-to-twilio:s1"]) ∧
    CoordEffect.endConv "s1" ∉ (onTwilioClose "s1" ["s1"]).2 ∧
    CoordEffect.saveRecord "s1" ∉ (onTwilioClose "s1" ["s1"]).2 := by
  refine ⟨by decide, by decide, by decide⟩

/-- C2 as amended: on media-stream close the coordinator only unsubscribes
from the session's relay channel and drops the subscription entry (doing
nothing when no entry exists); it performs no AI-provider teardown and no
status write there.  The teardown and the terminal status write happen in
the telephony status callback instead: on a terminal call status the
callback calls `endConversation` and saves the record with the terminal
status (24-hour TTL). -/
theorem twilio_close_unsubscribe_only (sessionId : String) (subs : List String)
    (rec : SessionRecord) (t : ℕ) :
    (∀ e ∈ (onTwilioClose sessionId subs).2,
       e = CoordEffect.unsub (elevenToTwilioChannel sessionId)) ∧
    (sessionId ∉ subs → onTwilioClose sessionId subs = (subs, [])) ∧
    (∀ sid, CoordEffect.endConv sid ∉ (onTwilioClose sessionId subs).2) ∧
    (∀ sid, CoordEffect.saveRecord sid ∉ (onTwilioClose sessionId subs).2) ∧
    statusCallbackStep sessionId "completed" (some (rec, t)) =
      (some ({ rec with status := "completed" }, 24 * 3600),
       [CoordEffect.endConv sessionId, CoordEffect.saveRecord sessionId]) := by
  refine ⟨?_, ?_, ?_, ?_, ?_⟩
  · intro e he
    by_cases hmem : sessionId ∈ subs <;> simp [onTwilioClose, hmem] at he ⊢
    exact he
  · intro hmem
    simp [onTwilioClose, hmem]
  · intro sid
    by_cases hmem : sessionId ∈ subs <;> simp [onTwilioClose, hmem]
  · intro sid
    by_cases hmem : sessionId ∈ subs <;> simp [onTwilioClose, hmem]
  · simp [statusCallbackStep, terminalStatuses]

/-- Witness for the amended C2: concrete close with and without a live
subscription, and a concrete terminal status callback. -/
theorem twilio_close_unsubscribe_only_witness :
    (∀ e ∈ (onTwilioClose "s2" ["s2", "s3"]).2,
       e = CoordEffect.unsub "elevenlabs-to-twilio:s2") ∧
    onTwilioClose "s9" ["s2", "s3"] = (["s2", "s3"], []) ∧
    statusCallbackStep "s2" "completed"
        (some ({ status := "active", terminateRequested := false,
                 terminateRequestedBy := none, terminateRequestTime := none,
                 terminationAcknowledged := false,
                 terminationAcknowledgedBy := none,
                 terminationAcknowledgedTime := none,
                 rest := [("callSid", "CA1")] }, 3600)) =
      (some ({ status := "completed", terminateRequested := false,
               terminateRequestedBy := none, terminateRequestTime := none,
               terminationAcknowledged := false,
               terminationAcknowledgedBy := none,
               terminationAcknowledgedTime := none,
               rest := [("callSid", "CA1")] }, 24 * 3600),
       [CoordEffect.endConv "s2", CoordEffect.saveRecord "s2"]) := by
  have h := twilio_close_unsubscribe_only "s2" ["s2", "s3"]
    { status := "active", terminateRequested := false,
      terminateRequestedBy := none, terminateRequestTime := none,
      terminationAcknowledged := false, terminationAcknowledgedBy := none,
      terminationAcknowledgedTime := none, rest := [("callSid", "CA1")] } 3600
  have h9 := twilio_close_unsubscribe_only "s9" ["s2", "s3"]
    { status := "active", terminateRequested := false,
      terminateRequestedBy := none, terminateRequestTime := none,
      terminationAcknowledged := false, terminationAcknowledgedBy := none,
      terminationAcknowledgedTime := none, rest := [("callSid", "CA1")] } 3600
  exact ⟨h.1, h9.2.1 (by decide), h.2.2.2.2⟩

/-- A sample envelope with sequence number 1 and payload `"AAA"`. -/
def sampleEnv1 : Envelope :=
  { audioBase64 := "AAA", source := "direct-audio", timestamp := 0,
    processId := 7, format := "ulaw", sampleRate := 8000,
    sequenceNumber := 1, track := "outbound", contentType := "audio/x-mulaw" }

/-- A sample envelope with sequence number 2 and payload `"BBB"`. -/
def sampleEnv2 : Envelope :=
  { audioBase64 := "BBB", source := "direct-audio", timestamp := 0,
    processId := 7, format := "ulaw", sampleRate := 8000,
    sequenceNumber := 2, track := "outbound", contentType := "audio/x-mulaw" }

/-- Counterexample for C3: the `'start'`-event flush sends buffered chunks
in arrival order without sorting.  With two buffered entries carrying
sequence numbers 2 then 1 (arrived out of order), the code delivers
payloads `["BBB", "AAA"]` — sequence order 2, 1, which is decreasing —
while the sorting flush described by the spec would deliver
`["AAA", "BBB"]`. -/
theorem flush_unsorted_counterexample :
    (flushServerBuffer "MZ1" [sampleEnv2, sampleEnv1]).1 =
      [{ event := "media", streamSid := "MZ1", payload := "BBB" },
       { event := "media", streamSid := "MZ1", payload := "AAA" }] ∧
    (specFlushServerBuffer "MZ1" [sampleEnv2, sampleEnv1]).1 =
      [{ event := "media", streamSid := "MZ1", payload := "AAA" },
       { event := "media", streamSid := "MZ1", payload := "BBB" }] ∧
    (flushServerBuffer "MZ1" [sampleEnv2, sampleEnv1]).1 ≠
      (specFlushServerBuffer "MZ1" [sampleEnv2, sampleEnv1]).1 ∧
    [sampleEnv2.sequenceNumber, sampleEnv1.sequenceNumber] = [2, 1] := by
  refine ⟨by decide, by decide, by decide, by decide⟩

/-- C3 as amended: the flush sends the buffered entries in arrival
(insertion) order — each buffered envelope becomes a minimal Twilio media
message in the same position — and then clears the buffer; no sorting is
performed, so delivery is in non-decreasing sequence-number order exactly
when the entries already arrived in that order, in which case the code
coincides with the sorting flush the spec describes. -/
theorem flush_arrival_order (streamSid : String) (buf : List Envelope) :
    (flushServerBuffer streamSid buf).1.map TwilioMediaMsg.payload =
      buf.map Envelope.audioBase64 ∧
    (flushServerBuffer streamSid buf).2 = [] ∧
    (buf.Sorted (fun a c => a.sequenceNumber ≤ c.sequenceNumber) →
       flushServerBuffer streamSid buf = specFlushServerBuffer streamSid buf) := by
  refine ⟨?_, rfl, ?_⟩
  · simp [flushServerBuffer]
  · intro hsorted
    rw [flushServerBuffer, specFlushServerBuffer]
    rcases hlen : buf.length with _ | _ | n
    · simp [hlen]
    · simp [hlen]
    · have h1 : 1 < buf.length := by omega
      simp [h1, List.Sorted.insertionSort_eq hsorted]

/-- Witness for the amended C3: flushing an in-order two-element buffer
agrees with the sorting flush and clears the buffer. -/
theorem flush_arrival_order_witness :
    (flushServerBuffer "MZ1" [sampleEnv1, sampleEnv2]).1.map TwilioMediaMsg.payload =
      ["AAA", "BBB"] ∧
    (flushServerBuffer "MZ1" [sampleEnv1, sampleEnv2]).2 = [] ∧
    flushServerBuffer "MZ1" [sampleEnv1, sampleEnv2] =
      specFlushServerBuffer "MZ1" [sampleEnv1, sampleEnv2] := by
  have h := flush_arrival_order "MZ1" [sampleEnv1, sampleEnv2]
  refine ⟨by decide, h.2.1, h.2.2 ?_⟩
  simp [List.Sorted, sampleEnv1, sampleEnv2]

/-- C6: `endConversation` on a session not held locally whose record exists
in the session store rewrites the shared record with the
termination-request flag and returns (every error path in the source is
caught, and this path ends in a plain `return` — the embedded function is
total, so the call never throws).  The owning process's next heartbeat tick
runs `_checkForTerminationRequests`, which observes the flag, stops the
heartbeat, marks the local session `CLOSING`, and closes the AI-provider
socket with code 1000 and a reason naming the requesting process. -/
theorem cross_process_termination_thm (requester ownerPid now now2 : ℤ)
    (rec : SessionRecord) (ttl : ℕ) (s : ELSession) (w : WsReadyState)
    (hws : s.ws = some w) :
    ∃ rec',
      endConversationRemote requester now (some (rec, ttl)) =
        some (rec', DEFAULT_SESSION_TTL) ∧
      rec'.terminateRequested = true ∧
      rec'.terminateRequestedBy = some requester ∧
      rec'.status = "terminating" ∧
      (checkForTerminationRequests ownerPid now2 (some s)
          (some (rec', DEFAULT_SESSION_TTL))).heartbeatStopped = true ∧
      (checkForTerminationRequests ownerPid now2 (some s)
          (some (rec', DEFAULT_SESSION_TTL))).socketClose =
        some (1000, "Termination requested by process " ++ toString requester) ∧
      (checkForTerminationRequests ownerPid now2 (some s)
          (some (rec', DEFAULT_SESSION_TTL))).localSession =
        some { s with status := ELStatus.CLOSING } := by
  rcases s with ⟨st, ra, ws⟩
  have hws' : ws = some w := hws
  subst hws'
  refine ⟨_, rfl, rfl, rfl, rfl, ?_, ?_, ?_⟩ <;>
    simp [checkForTerminationRequests, renderPid]

/-- A sample shared session record with no termination flag set. -/
def sampleRecordB : SessionRecord :=
  { status := "active", terminateRequested := false,
    terminateRequestedBy := none, terminateRequestTime := none,
    terminationAcknowledged := false, terminationAcknowledgedBy := none,
    terminationAcknowledgedTime := none, rest := [("callSid", "CA2")] }

/-- A sample `OPEN` local session with an open socket. -/
def openELSession : ELSession := ⟨.OPEN, 0, some .OPEN⟩

/-- Witness for C6: process 4444 requests termination of a session owned by
process 3333; 3333's heartbeat check stops the heartbeat and closes the
socket naming 4444. -/
theorem cross_process_termination_witness :
    ∃ rec',
      endConversationRemote 4444 100 (some (sampleRecordB, 3600)) =
        some (rec', DEFAULT_SESSION_TTL) ∧
      rec'.terminateRequested = true ∧
      rec'.terminateRequestedBy = some 4444 ∧
      rec'.status = "terminating" ∧
      (checkForTerminationRequests 3333 200 (some openELSession)
          (some (rec', DEFAULT_SESSION_TTL))).heartbeatStopped = true ∧
      (checkForTerminationRequests 3333 200 (some openELSession)
          (some (rec', DEFAULT_SESSION_TTL))).socketClose =
        some (1000, "Termination requested by process " ++ toString (4444 : ℤ)) ∧
      (checkForTerminationRequests 3333 200 (some openELSession)
          (some (rec', DEFAULT_SESSION_TTL))).localSession =
        some { openELSession with status := ELStatus.CLOSING } := by
  exact cross_process_termination_thm 4444 3333 100 200 sampleRecordB 3600
    openELSession .OPEN rfl

/-- C8: the round-trip claim is anchored to `handleAudioMessage`'s
sequence-numbered publish, but that publish is unreachable in the program:
`getRedisClient` is not among `./redisClient`'s exports, so the call at
src/unnamed/part_006 line 102 throws a `TypeError` on every audio message
with non-empty data, before the sequence counter or any publish code runs,
and the function's own catch swallows it.  Evaluated at every input — in
particular the failing input session `"s7"`, audio `"UklGR"` — the function
publishes no envelope, stamps no sequence number, and leaves the
per-session counter unchanged, contradicting the publish its own comments
and debug logging (lines 125-130, 147) document. -/
theorem handleAudioMessage_dead_thm (sessionId : String)
    (audioData : Option String) (counter : ℕ) (pid now : ℤ) :
    getRedisClientIsFunction = false ∧
    (handleAudioMessage sessionId audioData counter pid now).outcome.isPublished =
      false ∧
    (handleAudioMessage sessionId audioData counter pid now).counterAfter =
      counter ∧
    (handleAudioMessage "s7" (some "UklGR") 3 3333 500).outcome =
      PublishOutcome.errorCaught := by
  have hg : getRedisClientIsFunction = false := rfl
  refine ⟨hg, ?_, ?_, by decide⟩ <;>
  · rcases audioData with _ | a
    · rfl
    · by_cases ha : a = "" <;>
        simp [handleAudioMessage, ha, hg, PublishOutcome.isPublished]

/-- C9: the cross-process termination write rewrites the whole record via
`saveOutboundSession` with its default TTL of 3600 s, so any previous
expiry — including the 24-hour TTL the status callback sets on terminal
call statuses — is reset to one hour, while every field other than
`status`, `terminateRequested`, `terminateRequestedBy` and
`terminateRequestTime` is preserved by the spread. -/
theorem termination_write_frame_thm (rec : SessionRecord) (t : ℕ)
    (requester now : ℤ) (sessionId : String) :
    (∃ rec', endConversationRemote requester now (some (rec, t)) = some (rec', 3600) ∧
       rec'.status = "terminating" ∧
       rec'.terminateRequested = true ∧
       rec'.terminateRequestedBy = some requester ∧
       rec'.terminateRequestTime = some now ∧
       rec'.terminationAcknowledged = rec.terminationAcknowledged ∧
       rec'.terminationAcknowledgedBy = rec.terminationAcknowledgedBy ∧
       rec'.terminationAcknowledgedTime = rec.terminationAcknowledgedTime ∧
       rec'.rest = rec.rest) ∧
    DEFAULT_SESSION_TTL = 3600 ∧
    (statusCallbackStep sessionId "completed" (some (rec, t))).1 =
      some ({ rec with status := "completed" }, 24 * 3600) := by
  refine ⟨⟨_, rfl, rfl, rfl, rfl, rfl, rfl, rfl, rfl, rfl⟩, rfl, ?_⟩
  simp [statusCallbackStep, terminalStatuses]

/-- C10: `sendMessage` transmits nothing and returns `false` whenever the
local session is absent, its status is not `'OPEN'`, or the socket is
absent or not open; in particular while the session is `CONNECTING` or
`RECONNECTING` the media-stream gate `isSessionActiveOrOpening` still
forwards caller audio, and the forwarded chunk is dropped — nothing is sent
and nothing is queued (the send path has no queue). -/
theorem sendMessage_drop_thm (s : ELSession) (msg : ELOutMsg) (a : String) :
    sendMessage none msg = (false, []) ∧
    (¬(s.status = .OPEN ∧ s.ws = some .OPEN) →
       sendMessage (some s) msg = (false, [])) ∧
    (s.status = .CONNECTING ∨ s.status = .RECONNECTING →
       isSessionActiveOrOpening (some s) = true ∧
       twilioMediaForward (some s) a = (false, []) ∧
       sendAudioChunk (some s) a = (false, [])) := by
  refine ⟨rfl, ?_, ?_⟩
  · intro h
    simp [sendMessage, h]
  · rintro (h | h) <;>
      simp [isSessionActiveOrOpening, twilioMediaForward, sendAudioChunk,
        sendMessage, h]

/-- A sample `RECONNECTING` local session whose socket is closed. -/
def reconELSession : ELSession := ⟨.RECONNECTING, 2, some .CLOSED⟩

/-- A sample `CONNECTING` local session whose socket is still connecting. -/
def connELSession : ELSession := ⟨.CONNECTING, 0, some .CONNECTING⟩

/-- Witness for C10: a concrete `RECONNECTING` session with a closed socket
passes the forwarding gate yet drops the chunk, and a `CONNECTING` session
likewise. -/
theorem sendMessage_drop_witness :
    sendMessage none (.userAudioChunk "QQ") = (false, []) ∧
    sendMessage (some reconELSession) (.userAudioChunk "QQ") = (false, []) ∧
    isSessionActiveOrOpening (some reconELSession) = true ∧
    twilioMediaForward (some reconELSession) "QQ" = (false, []) ∧
    twilioMediaForward (some connELSession) "QQ" = (false, []) := by
  have h1 := sendMessage_drop_thm reconELSession (.userAudioChunk "QQ") "QQ"
  have h2 := sendMessage_drop_thm connELSession (.userAudioChunk "QQ") "QQ"
  have g1 := h1.2.2 (Or.inr rfl)
  have g2 := h2.2.2 (Or.inl rfl)
  exact ⟨h1.1, h1.2.1 (by decide), g1.1, g1.2.1, g2.2.1⟩

end BuzRelay
